import Mathlib

/-!
Verification of the VK message-scheduler service: a shallow embedding of the
relevant parts of main_server.py, models.py, scheduler.py, security.py and
vk_api.py, followed by theorems settling the specification claims.

Conventions of the embedding:
* UTC instants are modelled as integers (seconds); clock values and parsed
  datetimes are plain `Int`.
* Python functions that can raise are modelled with `Except` or `Option`;
  an HTTP endpoint returns an outcome value describing the response the
  caller observes (the registered FastAPI exception handlers included).
* Third-party primitives that the repository only calls (Fernet encryption,
  the httpx exchange with the VK API, the APScheduler engine) enter the
  model as explicit parameters or as small data types describing the
  possible results the calling code distinguishes.
-/

namespace VK

/- ------------------------------------------------------------------ -/
/- models.py: request validation (pydantic v2 path)                    -/
/- ------------------------------------------------------------------ -/

/-- A decimal digit, modelling the regex class backslash-d of
`re.fullmatch(r"-?\d+", v)` in models.py line 28 (ASCII digits; VK peer
identifiers are ASCII decimal strings). -/
def isDecimalDigit (c : Char) : Bool :=
  decide ('0' ≤ c) && decide (c ≤ '9')

/-- models.py lines 24-31, field validator check_recipient_id: the
recipient_id string must fully match an optional minus sign followed by
one or more digits. The pattern is evaluated over the character list of
the string. -/
def recipientIdOk (v : String) : Bool :=
  match v.data with
  | [] => false
  | '-' :: ds => !ds.isEmpty && ds.all isDecimalDigit
  | ds => ds.all isDecimalDigit

/-- models.py line 18: `message: str = Field(..., min_length=1,
max_length=4096)`; pydantic counts characters. -/
def messageLenOk (m : String) : Bool :=
  decide (1 ≤ m.length) && decide (m.length ≤ 4096)

/-- The raw fields of a POST /api/schedules body (models.py ScheduleRequest
before validation). -/
structure RawScheduleRequest where
  recipient_id : String
  message : String
  scheduled_at : String
deriving DecidableEq

/-- Environment for the datetime handling the service performs.
`fromisoformat` models the composite
`datetime.fromisoformat(s.replace("Z", "+00:00"))` restricted to
timezone-aware results, returning the UTC instant; `none` means the string
is malformed or naive, which the pydantic validator check_datetime_format
(models.py lines 33-47) rejects. -/
structure TimeEnv where
  fromisoformat : String → Option Int

/-- models.py ScheduleRequest validation as a whole: all three field
validators must pass for the request model to be constructed; otherwise
FastAPI rejects the request with a 422 validation error before the endpoint
body runs. -/
def scheduleRequestOk (env : TimeEnv) (r : RawScheduleRequest) : Bool :=
  recipientIdOk r.recipient_id && messageLenOk r.message &&
    (env.fromisoformat r.scheduled_at).isSome

/- ------------------------------------------------------------------ -/
/- APScheduler job store contents and the list/delete endpoints        -/
/- ------------------------------------------------------------------ -/

/-- One APScheduler job row as the repository creates it in
main_server.py lines 207-222: a date-trigger job whose kwargs carry the
owning account, the recipient and the message; `misfireGraceTime` is the
per-job misfire_grace_time (60 seconds in the add_job call). -/
structure APJob where
  id : String
  accountId : Int
  recipientId : String
  message : String
  runDate : Int
  misfireGraceTime : Int
deriving DecidableEq

/-- The contents of the APScheduler job store (SQLAlchemyJobStore). -/
structure SchedState where
  jobs : List APJob
deriving DecidableEq

/-- sched.get_job(job_id): lookup by id. -/
def getJob (st : SchedState) (jobId : String) : Option APJob :=
  st.jobs.find? fun j => j.id == jobId

/-- sched.remove_job(job_id): removes the row with that id. -/
def removeJob (st : SchedState) (jobId : String) : SchedState :=
  ⟨st.jobs.filter fun j => j.id != jobId⟩

/-- The response a caller of POST /api/schedules observes. -/
inductive ScheduleOutcome
  | accepted (jobId : String)
  | validationError
  | badRequest (detail : String)
  | internalError (detail : String)
deriving DecidableEq

/-- The body FastAPI general_exception_handler (main_server.py lines
104-110) returns for an exception no other handler catches. -/
def genericServerErrorDetail : String :=
  "An internal server error occurred. Please check server logs."

/-- schedule_message, main_server.py lines 180-229, after dependency
resolution (account_id from the client secret) and request-model
validation. Line 193 parses scheduled_at; a ValueError there is caught at
line 201 and mapped to a 400. Line 198 then evaluates
`run_date_dt <= datetime.now(timezone.utc) + timedelta(seconds=2)`, but
main_server.py imports only datetime and timezone from the datetime module
(line 6), so evaluating the guard raises NameError (timedelta is not
defined). NameError is not a ValueError, so it escapes the
try/except ValueError, and the registered generic Exception handler turns
it into a 500 response. Every line below the guard (job id generation,
sched.add_job) is therefore unreachable, and the job store is never
touched. `now` is the clock value datetime.now reads before the NameError
aborts the expression; the result does not depend on it. -/
def schedule_message (env : TimeEnv) (now : Int) (accountId : Int)
    (r : RawScheduleRequest) (freshId : String) (st : SchedState) :
    ScheduleOutcome × SchedState :=
  match env.fromisoformat r.scheduled_at with
  | none => (.badRequest "Invalid scheduled_at format", st)
  | some _parsed =>
      let _ := now
      let _ := accountId
      let _ := freshId
      (.internalError genericServerErrorDetail, st)

/-- The full POST /api/schedules pipeline: pydantic validation of the
request model first (422 on failure, endpoint body never runs), then the
endpoint body schedule_message. -/
def postSchedules (env : TimeEnv) (now : Int) (accountId : Int)
    (r : RawScheduleRequest) (freshId : String) (st : SchedState) :
    ScheduleOutcome × SchedState :=
  if scheduleRequestOk env r then schedule_message env now accountId r freshId st
  else (.validationError, st)

/-- main_server.py lines 258-261: the message preview built by
get_scheduled_tasks. Python slicing message[:50] is String.take 50. -/
def messagePreview (s : String) : String :=
  if 50 < s.length then s.take 50 ++ "..." else s

/-- models.py ScheduledTaskInfo, the per-job summary returned by
GET /api/schedules. -/
structure ScheduledTaskInfo where
  job_id : String
  recipient_id : String
  message_preview : String
  next_run_time_iso : String
  status : String
deriving DecidableEq

/-- main_server.py lines 263-271: the summary built for one job. `fmtIso`
models the isoformat rendering of the next run time (for a pending date
job, next_run_time is its run date). The status field is the literal
string PENDING for every listed job: the code stores no other status. -/
def taskInfoOfJob (fmtIso : Int → String) (j : APJob) : ScheduledTaskInfo :=
  { job_id := j.id
    recipient_id := j.recipientId
    message_preview := messagePreview j.message
    next_run_time_iso := fmtIso j.runDate
    status := "PENDING" }

/-- get_scheduled_tasks, main_server.py lines 240-276: iterate
sched.get_jobs(), keep the jobs whose kwargs account_id equals the
authenticated account, and render a summary for each. -/
def get_scheduled_tasks (fmtIso : Int → String) (accountId : Int)
    (st : SchedState) : List ScheduledTaskInfo :=
  (st.jobs.filter fun j => j.accountId == accountId).map (taskInfoOfJob fmtIso)

/-- The response a caller of DELETE /api/schedules observes. -/
inductive DeleteOutcome
  | noContent
  | internalError (detail : String)
deriving DecidableEq

/-- delete_scheduled_task, main_server.py lines 290-321. The body is one
try block: get_job; if the job exists and its kwargs account_id differs
from the caller, an HTTPException 403 is raised at line 307 — but that
raise happens inside the try, and HTTPException is a subclass of
Exception, so the blanket `except Exception` at line 319 catches it and
re-raises HTTPException 500 with detail
f-string Failed to remove scheduled task: followed by the stringified 403.
The caller therefore observes a 500, not the 403 the decorator at line 286
documents. On an owner match the job is removed and 204 returned; on a
missing job the else branch logs and returns 204 (idempotent delete). -/
def delete_scheduled_task (accountId : Int) (jobId : String)
    (st : SchedState) : DeleteOutcome × SchedState :=
  match getJob st jobId with
  | some j =>
      if j.accountId ≠ accountId then
        (.internalError
          "Failed to remove scheduled task: 403: You do not have permission to delete this task",
          st)
      else
        (.noContent, removeJob st jobId)
  | none => (.noContent, st)

/- ------------------------------------------------------------------ -/
/- scheduler.py: dispatch, misfire policy and the event listener       -/
/- ------------------------------------------------------------------ -/

/-- Whether one wakeup of the dispatch loop at time `now` (the first
opportunity at or after the run date) runs a due job or skips it. Models
the APScheduler date-trigger policy as configured by the repository
(coalesce False, per-job misfire_grace_time): the job runs if the lateness
is within the grace window, otherwise the run is skipped and an
EVENT_JOB_MISSED is emitted. -/
inductive DispatchResult
  | fire
  | missed
deriving DecidableEq

def dispatchStep (now : Int) (j : APJob) : DispatchResult :=
  if now ≤ j.runDate + j.misfireGraceTime then .fire else .missed

/-- The fields of an APScheduler job event that job_listener inspects.
Every JobExecutionEvent (executed, error and missed alike) has a
scheduled_run_time attribute, so `hasScheduledRunTime` is true for all of
them; `isLogRecordError` models the isinstance LogRecord test, which is
never true for the events the listener is subscribed to. -/
structure JobEvent where
  job_id : String
  exception : Option String
  isLogRecordError : Bool
  hasScheduledRunTime : Bool
deriving DecidableEq

/-- The four things job_listener can do; each is a log line. The listener
has no other effect: in particular it never writes to the job store, so no
job state is recorded anywhere when an event arrives. -/
inductive ListenerLog
  | execError (msg : String)
  | apschedulerInternal
  | warnMissed
  | infoExecuted
deriving DecidableEq

/-- job_listener, scheduler.py lines 61-73, translated branch by branch:
an exception on the event logs an error; the dead LogRecord branch logs an
internal message; any remaining event with a scheduled_run_time attribute
logs the MISSED warning; otherwise the executed-successfully info line. -/
def job_listener (e : JobEvent) : ListenerLog :=
  match e.exception with
  | some msg => .execError msg
  | none =>
      if e.isLogRecordError then .apschedulerInternal
      else if e.hasScheduledRunTime then .warnMissed
      else .infoExecuted

/-- One wakeup of the dispatch loop for a due one-shot job `j` at time
`now` (with now at or after the run date): within the grace window the
executor coroutine is submitted (first component true), beyond it the run
is skipped and the executor is never invoked (first component false). In
both cases the exhausted date-trigger job is removed from the job store by
the engine, and the resulting JobExecutionEvent — which always carries a
scheduled_run_time — is handed to job_listener, whose only effect is a log
line. No code in the repository writes any job state on a miss. -/
def misfireTick (now : Int) (j : APJob) (st : SchedState) :
    Bool × ListenerLog × SchedState :=
  match dispatchStep now j with
  | .fire =>
      (true, job_listener ⟨j.id, none, false, true⟩, removeJob st j.id)
  | .missed =>
      (false, job_listener ⟨j.id, none, false, true⟩, removeJob st j.id)

/- ------------------------------------------------------------------ -/
/- security.py: Fernet wrappers and credential resolution              -/
/- ------------------------------------------------------------------ -/

/-- encrypt_token, security.py lines 31-39: raises ValueError on a falsy
token, otherwise returns the Fernet ciphertext. `enc` models
fernet.encrypt composed with the byte encode/decode steps. -/
def encrypt_token (enc : String → String) (token : String) :
    Except String String :=
  if token = "" then .error "Cannot encrypt an empty token"
  else .ok (enc token)

/-- decrypt_token, security.py lines 41-53: returns none on a falsy input;
otherwise returns the Fernet plaintext, with InvalidToken and every other
decryption exception mapped to none. `dec` models fernet.decrypt with its
failure modes folded into the Option. -/
def decrypt_token (dec : String → Option String) (encrypted : String) :
    Option String :=
  if encrypted = "" then none else dec encrypted

/-- get_decrypted_vk_token, security.py lines 121-150. `dbTokenOf` models
the SELECT of encrypted_vk_token from the accounts row with the given id,
with sqlite errors folded into none (the function returns None on a
database error). A non-positive account id is rejected up front; a missing
or empty stored ciphertext yields none; otherwise the stored ciphertext is
decrypted, and the decryption result (possibly none) is returned as is. -/
def get_decrypted_vk_token (dec : String → Option String)
    (dbTokenOf : Int → Option String) (account_id : Int) : Option String :=
  if account_id ≤ 0 then none
  else
    match dbTokenOf account_id with
    | none => none
    | some encTok => if encTok = "" then none else decrypt_token dec encTok

/- ------------------------------------------------------------------ -/
/- vk_api.py: send_vk_message                                          -/
/- ------------------------------------------------------------------ -/

/-- The possible results of the messages.send HTTP exchange, as
send_vk_message distinguishes them (vk_api.py lines 92-137):
a JSON body with a response field (whose value is an int message id or
something else), a JSON body with an error field, a body with neither on a
success status, a body with neither on an error status (raise_for_status
raises HTTPStatusError, which only the blanket except catches), a timeout,
an httpx RequestError, or any other exception (for example a JSON decode
failure). -/
inductive VkSendHttp
  | respField (messageId : Option Int)
  | errField (code : Int) (msg : String)
  | neitherOk
  | neitherBad (msg : String)
  | timeout
  | requestError (msg : String)
  | otherException (msg : String)
deriving DecidableEq

/-- send_vk_message, vk_api.py lines 70-137: the empty-parameter guard at
line 76 first, then one return per branch of the exchange result; every
branch returns a triple and no exception escapes (the whole body after the
guard sits under except clauses ending in a blanket except Exception). -/
def send_vk_message (http : VkSendHttp) (token recipient_id message : String) :
    Bool × Option Int × Option String :=
  if token = "" ∨ recipient_id = "" ∨ message = "" then
    (false, none, some "Internal error: Invalid parameters for sending message.")
  else
    match http with
    | .respField mid => (true, mid, none)
    | .errField code msg =>
        (false, none, some ("VK Error " ++ toString code ++ ": " ++ msg))
    | .neitherOk => (false, none, some "Unknown VK API response")
    | .neitherBad msg => (false, none, some ("Unexpected error: " ++ msg))
    | .timeout => (false, none, some "Timeout sending message to VK")
    | .requestError msg => (false, none, some ("Network/HTTP error: " ++ msg))
    | .otherException msg => (false, none, some ("Unexpected error: " ++ msg))

/- ------------------------------------------------------------------ -/
/- scheduler.py: the job executor                                      -/
/- ------------------------------------------------------------------ -/

/-- What one invocation of the executor amounts to, seen from the dispatch
loop: the coroutine always returns normally, either after skipping the
send because no usable credential was available (only an error log is
produced) or after awaiting send_vk_message and logging its report. -/
inductive ExecOutcome
  | credentialFailure
  | sendReport (success : Bool) (vkMessageId : Option Int)
      (errorMessage : Option String)
deriving DecidableEq

/-- schedule_vk_message_job, scheduler.py lines 19-58: resolve the
credential via get_decrypted_vk_token; a falsy result (None or the empty
string) logs an error and returns without invoking send_vk_message;
otherwise send_vk_message is awaited and its triple logged. The function
is total: no branch raises, so the surrounding dispatch loop always sees a
normal completion. -/
def schedule_vk_message_job (dec : String → Option String)
    (dbTokenOf : Int → Option String) (http : VkSendHttp)
    (account_id : Int) (recipient_id message job_id : String) : ExecOutcome :=
  let _ := job_id
  match get_decrypted_vk_token dec dbTokenOf account_id with
  | none => .credentialFailure
  | some tok =>
      if tok = "" then .credentialFailure
      else
        match send_vk_message http tok recipient_id message with
        | (s, mid, err) => .sendReport s mid err

/-- The dispatch loop submits every due job to its executor and records
the outcome of each; an outcome is a value, not an exception, so no
single failing job stops the remaining jobs from being processed. -/
def runDueJobs (exec : APJob → ExecOutcome) (js : List APJob) :
    List (String × ExecOutcome) :=
  js.map fun j => (j.id, exec j)

/- ------------------------------------------------------------------ -/
/- Concrete instances used by witnesses and counterexamples            -/
/- ------------------------------------------------------------------ -/

/-- A demonstration datetime environment mapping two fixed ISO strings to
their UTC epoch seconds (2020-01-01T00:00:00Z and 2030-01-01T00:00:00Z). -/
def envDemo : TimeEnv :=
  ⟨fun s =>
    if s = "2020-01-01T00:00:00Z" then some 1577836800
    else if s = "2030-01-01T00:00:00Z" then some 1893456000
    else none⟩

/-- A demonstration isoformat renderer. -/
def fmtDemo : Int → String := fun t => toString t

/-- The empty job store. -/
def st0 : SchedState := ⟨[]⟩

/-- A job owned by account 1. -/
def jobA : APJob :=
  { id := "job-a", accountId := 1, recipientId := "42", message := "hello"
    runDate := 1000, misfireGraceTime := 60 }

/-- A job owned by account 2, used for the owner-mismatch delete. -/
def jobB : APJob :=
  { id := "job-b", accountId := 2, recipientId := "42", message := "hello"
    runDate := 1000, misfireGraceTime := 60 }

/-- A job store holding only jobA. -/
def stA : SchedState := ⟨[jobA]⟩

/-- A job store holding only jobB. -/
def stB : SchedState := ⟨[jobB]⟩

/-- A job whose grace window has fully elapsed by time 1061. -/
def jobLate : APJob :=
  { id := "late-1", accountId := 7, recipientId := "42", message := "hi"
    runDate := 1000, misfireGraceTime := 60 }

/-- A job store holding only jobLate. -/
def stLate : SchedState := ⟨[jobLate]⟩

/-- A 60-character string for the preview-truncation witness. -/
def sixty : String :=
  "012345678901234567890123456789012345678901234567890123456789"

/-- Witness Fernet model: prepend a marker character. -/
def encW : String → String := fun s => ⟨'F' :: s.data⟩

/-- Witness Fernet inverse: strip the marker character. -/
def decW : String → Option String := fun c =>
  match c.data with
  | [] => none
  | _ :: rest => some ⟨rest⟩

/- ------------------------------------------------------------------ -/
/- Helper lemmas                                                       -/
/- ------------------------------------------------------------------ -/

/-- Looking up a job id right after removing it finds nothing. -/
theorem getJob_removeJob (st : SchedState) (jid : String) :
    getJob (removeJob st jid) jid = none := by
  simp only [getJob, removeJob]
  rw [List.find?_eq_none]
  intro j hj
  have h := (List.mem_filter.mp hj).2
  simp_all

/- ------------------------------------------------------------------ -/
/- Claim theorems                                                      -/
/- ------------------------------------------------------------------ -/

/-- Claim C3: cancelling a job id that does not exist succeeds as a
no-op — 204 with the store unchanged, never a 404 — and cancelling the
same job twice, the first call made by the owner, succeeds both times,
the second call leaving the store exactly as the first left it. -/
theorem cancel_missing_noop_and_idempotent (a : Int) (jid : String)
    (st : SchedState) :
    (getJob st jid = none → delete_scheduled_task a jid st = (.noContent, st)) ∧
    (∀ j, getJob st jid = some j → j.accountId = a →
      delete_scheduled_task a jid st = (.noContent, removeJob st jid) ∧
      delete_scheduled_task a jid (removeJob st jid) =
        (.noContent, removeJob st jid)) := by
  constructor
  · intro h
    simp [delete_scheduled_task, h]
  · intro j hj ha
    refine ⟨?_, ?_⟩
    · simp [delete_scheduled_task, hj, ha]
    · simp [delete_scheduled_task, getJob_removeJob]

/-- Witness for claim C3 at concrete inputs: account 1 cancels the
missing id zz as a no-op, and cancels job-a twice with both calls
succeeding and the second one changing nothing. -/
theorem cancel_missing_noop_and_idempotent_witness :
    delete_scheduled_task 1 "zz" stA = (.noContent, stA) ∧
    (delete_scheduled_task 1 "job-a" stA = (.noContent, removeJob stA "job-a") ∧
      delete_scheduled_task 1 "job-a" (removeJob stA "job-a") =
        (.noContent, removeJob stA "job-a")) :=
  ⟨(cancel_missing_noop_and_idempotent 1 "zz" stA).1 (by decide),
   (cancel_missing_noop_and_idempotent 1 "job-a" stA).2 jobA (by decide) rfl⟩

/-- Claim C4, evaluated at its failing input: account 1 attempts to cancel
job-b owned by account 2. The store is left unchanged and the job is still
dispatched at its run date, but the caller observes a 500 — the 403
HTTPException is caught by the blanket except Exception inside
delete_scheduled_task and re-raised as a 500 — instead of the Forbidden
the claim, and the endpoint decorator itself, promise. -/
theorem cancel_owner_mismatch_reports_500 :
    delete_scheduled_task 1 "job-b" stB =
      (.internalError
        "Failed to remove scheduled task: 403: You do not have permission to delete this task",
        stB) ∧
    getJob stB "job-b" = some jobB ∧
    dispatchStep jobB.runDate jobB = .fire := by
  decide

/-- Counterexample to claim C2: at time 1061 the first opportunity for
jobLate (run date 1000, grace 60) falls outside the grace window; the
executor is indeed not invoked, but afterwards the job store retains no
record of the job at all — in particular no record in a Missed state,
which the claim requires to exist. -/
theorem missed_job_leaves_no_store_record :
    (misfireTick 1061 jobLate stLate).1 = false ∧
    ¬ ∃ j, getJob (misfireTick 1061 jobLate stLate).2.2 "late-1" = some j := by
  refine ⟨by decide, ?_⟩
  rintro ⟨j, hj⟩
  have hnone : getJob (misfireTick 1061 jobLate stLate).2.2 "late-1" = none := by
    decide
  rw [hnone] at hj
  exact Option.noConfusion hj

/-- Claim C2 as amended: whenever the first fire opportunity arrives
later than the run date plus the misfire grace, the executor is never
invoked; but no Missed state is recorded — the miss is only logged as a
warning by job_listener and the job is removed from the store. -/
theorem missed_policy_no_executor (now : Int) (j : APJob) (st : SchedState)
    (h : j.runDate + j.misfireGraceTime < now) :
    (misfireTick now j st).1 = false ∧
    (misfireTick now j st).2.1 = .warnMissed ∧
    getJob (misfireTick now j st).2.2 j.id = none := by
  have hd : dispatchStep now j = .missed := by
    unfold dispatchStep
    rw [if_neg (not_le.2 h)]
  refine ⟨?_, ?_, ?_⟩ <;>
    simp [misfireTick, hd, job_listener, getJob_removeJob]

/-- Witness for claim C2 as amended, at jobLate one second past its grace
window. -/
theorem missed_policy_no_executor_witness :
    (misfireTick 1061 jobLate stA).1 = false ∧
    (misfireTick 1061 jobLate stA).2.1 = .warnMissed ∧
    getJob (misfireTick 1061 jobLate stA).2.2 jobLate.id = none :=
  missed_policy_no_executor 1061 jobLate stA (by decide)

/-- Claim C6: get_scheduled_tasks previews a payload longer than 50
characters as exactly its first 50 characters followed by the 3-character
ellipsis marker, returns shorter payloads unmodified, and every listed
summary carries exactly this preview of its job message. -/
theorem payload_preview_truncation (s : String) :
    (50 < s.length → messagePreview s = s.take 50 ++ "..." ∧
      (s.take 50).length = 50 ∧ (messagePreview s).length = 53) ∧
    (s.length ≤ 50 → messagePreview s = s) ∧
    ("..." : String).length = 3 ∧
    (∀ fmt a st,
      (get_scheduled_tasks fmt a st).map ScheduledTaskInfo.message_preview =
        (st.jobs.filter fun j => j.accountId == a).map
          fun j => messagePreview j.message) := by
  refine ⟨?_, ?_, rfl, ?_⟩
  · intro h
    have ht : (s.take 50).length = 50 := by
      rw [String.take_eq]
      show (s.data.take 50).length = 50
      rw [List.length_take]
      have hd : 50 < s.data.length := h
      omega
    refine ⟨by simp [messagePreview, h], ht, ?_⟩
    simp [messagePreview, h, String.length_append, ht]
    rfl
  · intro h
    simp [messagePreview, not_lt.2 h]
  · intro fmt a st
    simp [get_scheduled_tasks, taskInfoOfJob, List.map_map, Function.comp]

/-- Witness for claim C6 on a concrete 60-character payload. -/
theorem payload_preview_truncation_witness :
    messagePreview sixty = sixty.take 50 ++ "..." ∧
    (sixty.take 50).length = 50 ∧ (messagePreview sixty).length = 53 :=
  (payload_preview_truncation sixty).1 (by decide)

/-- Claim C1, evaluated at its failing input: a submit whose parsed
trigger time 1577836800 (2020-01-01T00:00:00Z) lies far in the past of
the clock 1750000000 creates no job record — but the caller observes a
500 caused by the NameError at main_server.py line 198 (timedelta is
never imported there), not the 400 time-validation rejection the claim
promises; the lead-time comparison never completes. -/
theorem submit_past_time_internal_error :
    envDemo.fromisoformat "2020-01-01T00:00:00Z" = some 1577836800 ∧
    (1577836800 : Int) ≤ 1750000000 + 2 ∧
    postSchedules envDemo 1750000000 7
      ⟨"42", "hello", "2020-01-01T00:00:00Z"⟩ "fresh-id" st0 =
      (.internalError genericServerErrorDetail, st0) ∧
    (postSchedules envDemo 1750000000 7
      ⟨"42", "hello", "2020-01-01T00:00:00Z"⟩ "fresh-id" st0).1 ≠
      .badRequest "Scheduled time must be at least a few seconds in the future" := by
  decide

/-- Claim C5, evaluated at its failing input: a fully valid submit —
recipient 42, payload hello, trigger 1893456000 (2030-01-01T00:00:00Z),
well beyond the lead time at clock 1750000000 — never returns a job id at
all: the NameError at main_server.py line 198 aborts the endpoint before
a job id is even generated, the caller observes a 500, the store is
unchanged and a following list call by the same owner returns nothing. -/
theorem submit_valid_internal_error :
    envDemo.fromisoformat "2030-01-01T00:00:00Z" = some 1893456000 ∧
    (1750000000 : Int) + 2 < 1893456000 ∧
    postSchedules envDemo 1750000000 7
      ⟨"42", "hello", "2030-01-01T00:00:00Z"⟩ "fresh-id" st0 =
      (.internalError genericServerErrorDetail, st0) ∧
    get_scheduled_tasks fmtDemo 7 st0 = [] := by
  decide

/-- Claim C7: a submit whose recipient string does not fully match an
optionally negated digit string, or whose payload exceeds 4096
characters, is rejected by request-model validation (422) before the
endpoint body runs, and the job store is untouched. -/
theorem submit_request_validation (env : TimeEnv) (now a : Int)
    (r : RawScheduleRequest) (fid : String) (st : SchedState) :
    (recipientIdOk r.recipient_id = false →
      postSchedules env now a r fid st = (.validationError, st)) ∧
    (4096 < r.message.length →
      postSchedules env now a r fid st = (.validationError, st)) := by
  constructor
  · intro h
    simp [postSchedules, scheduleRequestOk, h]
  · intro h
    have hm : messageLenOk r.message = false := by
      simp only [messageLenOk, Bool.and_eq_false_iff, decide_eq_false_iff_not,
        not_le]
      omega
    simp [postSchedules, scheduleRequestOk, hm]

/-- Witness for claim C7 on the malformed recipient 12a. -/
theorem submit_request_validation_witness :
    postSchedules envDemo 1750000000 7
      ⟨"12a", "hello", "2030-01-01T00:00:00Z"⟩ "fresh-id" st0 =
      (.validationError, st0) :=
  (submit_request_validation envDemo 1750000000 7
    ⟨"12a", "hello", "2030-01-01T00:00:00Z"⟩ "fresh-id" st0).1 (by decide)

/-- Claim C8: whenever credential resolution fails — the account has no
stored row, the database lookup fails, the stored ciphertext is empty, or
decryption of the stored ciphertext fails — the executor returns the
credentialFailure outcome without consulting the send exchange at all
(the result is the same for every http parameter), and since every
executor outcome is an ordinary value, the dispatch loop processes every
due job in its batch regardless of such failures. -/
theorem executor_credential_unavailable (dec : String → Option String)
    (dbTokenOf : Int → Option String) (http : VkSendHttp) (a : Int)
    (r m jid : String)
    (h : get_decrypted_vk_token dec dbTokenOf a = none) :
    schedule_vk_message_job dec dbTokenOf http a r m jid = .credentialFailure ∧
    (dbTokenOf a = none → get_decrypted_vk_token dec dbTokenOf a = none) ∧
    (∀ c, dbTokenOf a = some c → dec c = none →
      get_decrypted_vk_token dec dbTokenOf a = none) ∧
    (∀ js : List APJob,
      (runDueJobs (fun j => schedule_vk_message_job dec dbTokenOf http
        j.accountId j.recipientId j.message j.id) js).length = js.length) := by
  refine ⟨?_, ?_, ?_, ?_⟩
  · simp [schedule_vk_message_job, h]
  · intro hdb
    by_cases ha : a ≤ 0 <;> simp [get_decrypted_vk_token, ha, hdb]
  · intro c hdb hdec
    by_cases ha : a ≤ 0 <;>
      simp [get_decrypted_vk_token, ha, hdb, decrypt_token, hdec]
  · intro js
    simp [runDueJobs]

/-- Witness for claim C8: an account with no stored credential makes the
executor report the credential failure and skip the send. -/
theorem executor_credential_unavailable_witness :
    schedule_vk_message_job (fun _ => none) (fun _ => none) .timeout
      5 "42" "hi" "j1" = .credentialFailure :=
  (executor_credential_unavailable (fun _ => none) (fun _ => none) .timeout
    5 "42" "hi" "j1" rfl).1

/-- Claim C9: with the Fernet primitive modelled as an enc/dec pair
satisfying the library contract — decryption under the same key inverts
encryption, and ciphertexts are never empty — encrypt_token followed by
decrypt_token round-trips every non-empty token, encrypt_token rejects
the empty string with a ValueError, and decrypt_token returns none on the
empty string. -/
theorem token_encrypt_decrypt_roundtrip (enc : String → String)
    (dec : String → Option String)
    (hinv : ∀ s, dec (enc s) = some s) (hne : ∀ s, enc s ≠ "") :
    (∀ t, t ≠ "" →
      encrypt_token enc t = .ok (enc t) ∧
      decrypt_token dec (enc t) = some t) ∧
    encrypt_token enc "" = .error "Cannot encrypt an empty token" ∧
    decrypt_token dec "" = none := by
  refine ⟨?_, rfl, rfl⟩
  intro t ht
  refine ⟨by simp [encrypt_token, ht], ?_⟩
  simp [decrypt_token, hne t, hinv t]

/-- Witness for claim C9 on the concrete marker scheme encW/decW and the
token tok. -/
theorem token_encrypt_decrypt_roundtrip_witness :
    encrypt_token encW "tok" = .ok (encW "tok") ∧
    decrypt_token decW (encW "tok") = some "tok" :=
  (token_encrypt_decrypt_roundtrip encW decW (fun _ => rfl)
    (fun s hs => by
      have hdata := congrArg String.data hs
      simp [encW] at hdata)).1 "tok" (by decide)

/-- Claim C10: send_vk_message always returns a success, message-id,
error-message triple — the embedding is a total function because every
control path of the source returns, the blanket exception handlers
included; a true success carries no error message, a failure carries no
message id and always a present error message, and an empty token,
recipient or message makes it fail. -/
theorem send_vk_message_result_contract (http : VkSendHttp)
    (token rid msg : String) :
    ((send_vk_message http token rid msg).1 = true →
      (send_vk_message http token rid msg).2.2 = none) ∧
    ((send_vk_message http token rid msg).1 = false →
      (send_vk_message http token rid msg).2.1 = none ∧
      (send_vk_message http token rid msg).2.2 ≠ none) ∧
    (send_vk_message http "" rid msg).1 = false ∧
    (send_vk_message http token "" msg).1 = false ∧
    (send_vk_message http token rid "").1 = false := by
  refine ⟨?_, ?_, by simp [send_vk_message], by simp [send_vk_message],
    by simp [send_vk_message]⟩
  · by_cases hg : token = "" ∨ rid = "" ∨ msg = ""
    · simp [send_vk_message, hg]
    · cases http <;> simp [send_vk_message, hg]
  · by_cases hg : token = "" ∨ rid = "" ∨ msg = ""
    · simp [send_vk_message, hg]
    · cases http <;> simp [send_vk_message, hg]

/-- Witness for claim C10: a timed-out exchange yields a failure with no
message id and a present error message. -/
theorem send_vk_message_result_contract_witness :
    (send_vk_message .timeout "t" "42" "hi").2.1 = none ∧
    (send_vk_message .timeout "t" "42" "hi").2.2 ≠ none :=
  (send_vk_message_result_contract .timeout "t" "42" "hi").2.1 (by decide)

end VK
